import Mathlib

/-
  Verification of the workflow state-machine engine of the
  responsible-vibe-mcp repository against its natural-language
  specification.

  The embedding is shallow: TypeScript classes become plain Lean
  functions, the SQLite-backed session store becomes an association
  list that is passed and returned explicitly, the file system and
  the git subprocess become explicit environment records, and
  JavaScript strings become Lean `String` / `List Char` (one
  element per UTF-16 code unit; all code points that occur in the
  repository are in the basic plane, so `Char.toNat` agrees with
  JavaScript `charCodeAt`).  YAML folded block scalars are
  transcribed with single-space line folding, blank lines as
  newlines, and the final clipped line break.
-/

set_option autoImplicit false
set_option maxRecDepth 100000

namespace VibeFeature

/- ===================================================================
   Session identity (src/conversation-manager.ts,
   ConversationManager.generateConversationId)
   =================================================================== -/

/-- JavaScript 32-bit signed-integer coercion (the effect of `x & x`
and of `<<` on a JS number): wrap into the interval `[-2^31, 2^31)`. -/
def toInt32 (x : Int) : Int :=
  (x + 2 ^ 31) % 2 ^ 32 - 2 ^ 31

/-- One iteration of the rolling-hash loop
`hash = ((hash << 5) - hash) + char; hash = hash & hash`.
The shift acts on the int32 value of `hash` (always already an int32
here) and itself produces an int32; the subtraction and addition are
exact double arithmetic; `hash & hash` coerces back to int32. -/
def hashStep (h : Int) (c : Char) : Int :=
  toInt32 (toInt32 (h * 32) - h + c.toNat)

/-- The rolling hash of `generateConversationId`, starting from 0. -/
def jsStringHash (s : List Char) : Int :=
  s.foldl hashStep 0

/-- Digit characters of JavaScript `Number.prototype.toString(36)`:
`0`-`9` then lowercase `a`-`z`. -/
def digit36 (d : Nat) : Char :=
  if d < 10 then Char.ofNat (48 + d) else Char.ofNat (87 + d)

/-- Base-36 digit extraction with explicit fuel (structural recursion
so that concrete hashes evaluate inside the kernel); `fuel ≥ n`
always suffices because the value shrinks by a factor of 36 each
step. -/
def toBase36Aux : Nat → Nat → List Char
  | 0, n => [digit36 (n % 36)]
  | fuel + 1, n =>
    if n < 36 then [digit36 n]
    else toBase36Aux fuel (n / 36) ++ [digit36 (n % 36)]

/-- Base-36 rendering of a natural number, most significant digit
first, as produced by JavaScript `toString(36)`. -/
def toBase36 (n : Nat) : List Char :=
  toBase36Aux n n

/-- `Math.abs(hash).toString(36).substring(0, 6)` applied to the hash
of the string `projectPath + ":" + gitBranch`. -/
def hashStr6 (p b : List Char) : List Char :=
  (toBase36 (jsStringHash (p ++ ':' :: b)).natAbs).take 6

/-- `projectPath.split('/').pop() || 'unknown-project'`: the segment
after the last `/`, with the falsy empty string replaced by the
fallback name. -/
def projectName (p : List Char) : List Char :=
  let last := (p.reverse.takeWhile (fun c => c != '/')).reverse
  if last.isEmpty then "unknown-project".toList else last

/-- Characters kept by the branch sanitizer `[^a-zA-Z0-9-]`. -/
def isBranchKeep (c : Char) : Bool :=
  (97 ≤ c.toNat && c.toNat ≤ 122) || (65 ≤ c.toNat && c.toNat ≤ 90) ||
    (48 ≤ c.toNat && c.toNat ≤ 57) || c == '-'

/-- `replace(/[^a-zA-Z0-9-]/g, '-')`. -/
def dashify (b : List Char) : List Char :=
  b.map (fun c => if isBranchKeep c then c else '-')

/-- The dash-run replacement (regex `-+` replaced globally by `-`):
collapse every run of dashes to one dash. -/
def squeezeDashes : List Char → List Char
  | [] => []
  | c :: rest =>
    match squeezeDashes rest with
    | [] => [c]
    | d :: ds => if c == '-' && d == '-' then d :: ds else c :: d :: ds

/-- The `^-` half of `replace(/^-|-$/g, '')`: drop one leading dash. -/
def dropLeadDash : List Char → List Char
  | '-' :: rest => rest
  | l => l

/-- The `-$` half of `replace(/^-|-$/g, '')`: drop one trailing dash. -/
def dropTrailDash (l : List Char) : List Char :=
  (dropLeadDash l.reverse).reverse

/-- The full branch sanitizer of `generateConversationId`. -/
def cleanBranch (b : List Char) : List Char :=
  dropTrailDash (dropLeadDash (squeezeDashes (dashify b)))

/-- `ConversationManager.generateConversationId`.  In test mode
(`NODE_ENV === 'test'`) the hash suffix is the fixed `p423k1`;
otherwise it is the truncated base-36 rolling hash. -/
def generateConversationId (testMode : Bool) (p b : List Char) : List Char :=
  if testMode then
    projectName p ++ '-' :: cleanBranch b ++ '-' :: "p423k1".toList
  else
    projectName p ++ '-' :: cleanBranch b ++ '-' :: hashStr6 p b

/-- The segment of a character list after its last dash. -/
def lastDashSeg (l : List Char) : List Char :=
  (l.reverse.takeWhile (fun c => c != '-')).reverse

/- ===================================================================
   Git branch detection (src/conversation-manager.ts,
   ConversationManager.getGitBranch)
   =================================================================== -/

/-- The pieces of the outside world that `getGitBranch` consults:
whether `projectPath/.git` exists, and the outcome of running
`git rev-parse --abbrev-ref HEAD` there (`none` models the command
throwing). -/
structure GitEnv where
  hasGitDir : String → Bool
  branchCmd : String → Option String

/-- `ConversationManager.getGitBranch`: not a git repository or a
failing git invocation yields the sentinel `"default"`; a successful
invocation yields the trimmed command output. -/
def getGitBranch (env : GitEnv) (projectPath : String) : String :=
  if env.hasGitDir projectPath then
    match env.branchCmd projectPath with
    | some out => out.trim
    | none => "default"
  else
    "default"

/-- A project directory with no `.git` and no usable git binary. -/
def bareGitEnv : GitEnv :=
  { hasGitDir := fun _ => false, branchCmd := fun _ => none }

/- ===================================================================
   Workflow graph data model (resources/workflows/*.yaml and
   state-machine-schema.json; field names follow the schema)
   =================================================================== -/

/-- The normalized internal edge shape.  The flat schema variant has
no modeled flag; named triggers are modeled edges, so normalization
defaults the flag to `true`. -/
structure Edge where
  trigger : String
  «to» : String
  instructions : String
  transition_reason : String
  is_modeled : Bool
deriving DecidableEq

/-- A phase node: `definitions.state` of the schema. -/
structure StateNode where
  description : String
  transitions : List Edge
deriving DecidableEq

/-- One entry of the `direct_transitions` list. -/
structure DirectTransitionRule where
  state : String
  instructions : String
  transition_reason : String
deriving DecidableEq

/-- A loaded workflow graph (`YamlStateMachine` in the TypeScript
types). -/
structure YamlStateMachine where
  name : String
  description : String
  initial_state : String
  states : List (String × StateNode)
  direct_transitions : List DirectTransitionRule
deriving DecidableEq

/-- A raw transition record as it appears in a YAML definition:
either the flat shape (`trigger`, `to`, `instructions`,
`transition_reason`) or the nested-effects shape (`trigger`,
`target`, `is_modeled`, `side_effects.instructions`,
`side_effects.transition_reason`). -/
inductive RawTransition where
  | flat (trigger «to» instructions transition_reason : String)
  | nested (trigger target : String) (modeled : Bool)
      (instructions transition_reason : String)
deriving DecidableEq

/-- A raw phase node of a YAML definition. -/
structure RawState where
  description : String
  transitions : List RawTransition
deriving DecidableEq

/-- A raw workflow definition as parsed from YAML, before edge
normalization. -/
structure RawStateMachine where
  name : String
  description : String
  initial_state : String
  states : List (String × RawState)
  direct_transitions : List DirectTransitionRule
deriving DecidableEq

/-- Recognizer for the flat transition shape. -/
def isFlatShape : RawTransition → Bool
  | .flat _ _ _ _ => true
  | .nested _ _ _ _ _ => false

/-- Recognizer for the nested-effects transition shape. -/
def isNestedShape : RawTransition → Bool
  | .flat _ _ _ _ => false
  | .nested _ _ _ _ _ => true

/-- Modelled from the spec: the Workflow Definition Loader's edge
normalization (spec §4.1); the state-machine-loader source is not
under src/, only its callers and its JSON schema are.  Both schema
variants map onto the single internal `Edge` shape. -/
def normalizeTransition : RawTransition → Edge
  | .flat trigger target instructions reason => ⟨trigger, target, instructions, reason, true⟩
  | .nested trigger target modeled instructions reason =>
      ⟨trigger, target, instructions, reason, modeled⟩

/-- Normalize every transition of every state of a raw definition. -/
def normalizeStateMachine (raw : RawStateMachine) : YamlStateMachine :=
  { name := raw.name
    description := raw.description
    initial_state := raw.initial_state
    states := raw.states.map fun s =>
      (s.1, ⟨s.2.description, s.2.transitions.map normalizeTransition⟩)
    direct_transitions := raw.direct_transitions }

/-- Modelled from the spec: the loader's eager structural validation
(spec §4.1) — the initial phase must be declared and every edge must
target a declared phase. -/
def validStateMachine (sm : YamlStateMachine) : Bool :=
  (sm.states.lookup sm.initial_state).isSome &&
    sm.states.all fun s =>
      s.2.transitions.all fun e => (sm.states.lookup e.«to»).isSome

/-- Modelled from the spec: `load(source) -> WorkflowGraph`, failing
with `DefinitionInvalid` when validation rejects the normalized
graph (spec §4.1). -/
def loadStateMachine (raw : RawStateMachine) : Except String YamlStateMachine :=
  let sm := normalizeStateMachine raw
  if validStateMachine sm then .ok sm else .error "DefinitionInvalid"

/- ===================================================================
   Transition engine: explicit phase jump (spec §4.5; the
   transition-engine source is not under src/, only its callers are)
   =================================================================== -/

/-- The result of a transition: new phase, guidance text, reason. -/
structure TransitionResult where
  newPhase : String
  instructions : String
  transition_reason : String
deriving DecidableEq

/-- First edge of the current phase that targets the requested phase
(an unknown current phase contributes no edges, matching the spec's
tolerance of stale phases). -/
def findEdgeTo (sm : YamlStateMachine) (p t : String) : Option Edge :=
  match sm.states.lookup p with
  | none => none
  | some node => node.transitions.find? fun e => e.«to» == t

/-- The graph's `direct_transitions` rule for a phase, if any. -/
def findDirectRule (sm : YamlStateMachine) (t : String) : Option DirectTransitionRule :=
  sm.direct_transitions.find? fun r => r.state == t

/-- Modelled from the spec: the generic direct-transition message used
when no `DirectTransitionRule` exists for the target phase. -/
def genericDirectInstructions (t : String) : String :=
  "Direct transition to " ++ t ++ " phase."

/-- Modelled from the spec: the Transition Engine's explicit phase
jump (spec §4.5).  A declared target always succeeds: a modeled edge
from the current phase wins, then the target's direct-transition
rule, then the generic message; an undeclared target fails with
`PhaseNotFound`. -/
def handleExplicitTransition (sm : YamlStateMachine) (p t : String) :
    Except String TransitionResult :=
  if (sm.states.lookup t).isSome then
    match findEdgeTo sm p t with
    | some e => .ok ⟨t, e.instructions, e.transition_reason⟩
    | none =>
      match findDirectRule sm t with
      | some r => .ok ⟨t, r.instructions, r.transition_reason⟩
      | none => .ok ⟨t, genericDirectInstructions t,
          "Direct transition to " ++ t⟩
  else
    .error ("PhaseNotFound: " ++ t)

/- ===================================================================
   Workflow manager (src/workflow-manager.ts)
   =================================================================== -/

/-- The file system as `WorkflowManager` sees it: existence checks
plus the outcome of `StateMachineLoader.loadFromFile` (`none` models
a parse/validation failure being thrown). -/
structure FileSystem where
  pathExists : String → Bool
  parseFile : String → Option YamlStateMachine

/-- Structured rendering of the errors `loadWorkflowForProject`
throws; each constructor carries the data interpolated into the
thrown message. -/
inductive WorkflowError where
  | customWorkflowMissing (projectPath : String) (searched : List String)
  | definitionInvalid (filePath : String)
  | unknownWorkflow (requested : String) (valid : List String)
deriving DecidableEq

/-- `StateMachineLoader.loadFromFile` as observed by the manager. -/
def loadFromFile (fs : FileSystem) (filePath : String) :
    Except WorkflowError YamlStateMachine :=
  match fs.parseFile filePath with
  | some g => .ok g
  | none => .error (.definitionInvalid filePath)

/-- The fixed, ordered, project-relative custom-workflow candidates
(both naming conventions, `.yaml` before `.yml`). -/
def customWorkflowRelPaths : List String :=
  [".vibe/state-machine.yaml", ".vibe/state-machine.yml",
   ".vibe/workflow.yaml", ".vibe/workflow.yml"]

/-- The absolute candidate paths (`path.join(projectPath, '.vibe', f)`
modelled as string concatenation). -/
def customWorkflowPaths (projectPath : String) : List String :=
  customWorkflowRelPaths.map fun r => projectPath ++ "/" ++ r

/-- The state of a `WorkflowManager`: its view of the file system and
the predefined workflows loaded at construction. -/
structure WorkflowManager where
  fs : FileSystem
  predefinedWorkflows : List (String × YamlStateMachine)

/-- `WorkflowManager.getWorkflowNames`. -/
def getWorkflowNames (wm : WorkflowManager) : List String :=
  wm.predefinedWorkflows.map Prod.fst

/-- `WorkflowManager.loadWorkflowForProject`: an omitted name defaults
to `waterfall`; `custom` searches the fixed candidate list and loads
the first existing file, failing with the searched (relative) paths
when none exists; a predefined name returns the cached graph; any
other name fails listing the valid names. -/
def loadWorkflowForProject (wm : WorkflowManager) (projectPath : String)
    (requestedName : Option String) : Except WorkflowError YamlStateMachine :=
  let workflowName := requestedName.getD "waterfall"
  if workflowName = "custom" then
    match (customWorkflowPaths projectPath).find? wm.fs.pathExists with
    | some filePath => loadFromFile wm.fs filePath
    | none => .error (.customWorkflowMissing projectPath customWorkflowRelPaths)
  else
    match wm.predefinedWorkflows.lookup workflowName with
    | some g => .ok g
    | none => .error (.unknownWorkflow workflowName
        (getWorkflowNames wm ++ ["custom"]))

/- ===================================================================
   Session store and conversation manager
   (src/conversation-manager.ts; the Database is modelled as an
   association list keyed by conversation id, `saveConversationState`
   as a shadowing insert)
   =================================================================== -/

/-- One persisted session record (`ConversationState` in types.ts). -/
structure ConversationState where
  conversationId : String
  projectPath : String
  gitBranch : String
  currentPhase : String
  planFilePath : String
  workflowName : String
  createdAt : String
  updatedAt : String
deriving DecidableEq

/-- The projection returned to callers (`ConversationContext`). -/
structure ConversationContext where
  conversationId : String
  projectPath : String
  gitBranch : String
  currentPhase : String
  planFilePath : String
  workflowName : String
deriving DecidableEq

/-- The session store: one record per conversation id. -/
abbrev Store := List (String × ConversationState)

/-- The context fields of a state record. -/
def contextOf (st : ConversationState) : ConversationContext :=
  ⟨st.conversationId, st.projectPath, st.gitBranch, st.currentPhase,
    st.planFilePath, st.workflowName⟩

/-- `Database.saveConversationState`: upsert of the record under its
own conversation id (newest entry shadows older ones). -/
def saveConversationState (db : Store) (st : ConversationState) : Store :=
  (st.conversationId, st) :: db

/-- The plan-file name choice of `createNewConversationState`. -/
def planFileNameOf (gitBranch : String) : String :=
  if gitBranch = "main" ∨ gitBranch = "master" then "development-plan.md"
  else "development-plan-" ++ gitBranch ++ ".md"

/-- `resolve(projectPath, '.vibe', planFileName)` for an absolute
project path, modelled as path concatenation. -/
def planFilePathOf (projectPath gitBranch : String) : String :=
  projectPath ++ "/.vibe/" ++ planFileNameOf gitBranch

/-- `generateConversationId` on `String` values. -/
def generateConversationIdStr (testMode : Bool) (projectPath gitBranch : String) : String :=
  String.mk (generateConversationId testMode projectPath.toList gitBranch.toList)

/-- `ConversationManager.createNewConversationState`: loads the
workflow for the project (propagating its failure), builds the fresh
record with the workflow's initial phase and the branch-derived plan
path, and writes it to the store. -/
def createNewConversationState (wm : WorkflowManager) (db : Store)
    (conversationId projectPath gitBranch workflowName timestamp : String) :
    Except WorkflowError (ConversationState × Store) :=
  match loadWorkflowForProject wm projectPath (some workflowName) with
  | .error e => .error e
  | .ok sm =>
    let newState : ConversationState :=
      { conversationId := conversationId
        projectPath := projectPath
        gitBranch := gitBranch
        currentPhase := sm.initial_state
        planFilePath := planFilePathOf projectPath gitBranch
        workflowName := workflowName
        createdAt := timestamp
        updatedAt := timestamp }
    .ok (newState, saveConversationState db newState)

/-- `ConversationManager.createConversationContext`: an existing
record for the derived id is returned as-is with no write (the
returned flag records whether a store write happened); otherwise a
fresh record is created and saved. -/
def createConversationContext (wm : WorkflowManager) (db : Store) (testMode : Bool)
    (projectPath gitBranch workflowName timestamp : String) :
    Except WorkflowError (ConversationContext × Store × Bool) :=
  match db.lookup (generateConversationIdStr testMode projectPath gitBranch) with
  | some existingState => .ok (contextOf existingState, db, false)
  | none =>
    match createNewConversationState wm db
        (generateConversationIdStr testMode projectPath gitBranch) projectPath gitBranch
        workflowName timestamp with
    | .error e => .error e
    | .ok (st, db') => .ok (contextOf st, db', true)

/-- The patch argument of `updateConversationState`: the three
updatable fields of the session record, each optional. -/
structure StateUpdates where
  currentPhase : Option String
  planFilePath : Option String
  workflowName : Option String

/-- `ConversationManager.updateConversationState`: a missing record
yields the thrown not-found message and an untouched store; an
existing record is merged with the patch, restamped, and saved. -/
def updateConversationState (db : Store) (conversationId : String)
    (updates : StateUpdates) (now : String) : Store × Option String :=
  match db.lookup conversationId with
  | none => (db, some ("Conversation state not found for ID: " ++ conversationId))
  | some currentState =>
    (saveConversationState db
      { currentState with
        currentPhase := updates.currentPhase.getD currentState.currentPhase
        planFilePath := updates.planFilePath.getD currentState.planFilePath
        workflowName := updates.workflowName.getD currentState.workflowName
        updatedAt := now }, none)

/-- The mutable world touched by reset: the session store, the plan
files on disk, and the interaction-log rows (flagged when
soft-deleted). -/
structure World where
  db : Store
  planFiles : List String
  interactionLogs : List (String × Bool)
deriving DecidableEq

/-- `Database.softDeleteInteractionLogs`: flag every log row of the
conversation as deleted. -/
def softDeleteInteractionLogs (logs : List (String × Bool))
    (conversationId : String) : List (String × Bool) :=
  logs.map fun e => if e.1 == conversationId then (e.1, true) else e

/-- `Database.deleteConversationState`: remove the record. -/
def deleteConversationState (db : Store) (conversationId : String) : Store :=
  db.filter fun kv => kv.1 != conversationId

/-- `PlanManager.deletePlanFile`: remove the file if present. -/
def deletePlanFile (planFiles : List String) (filePath : String) : List String :=
  planFiles.filter fun p => p != filePath

/-- The base error message of `getConversationContext` when no session
exists (the configuration note appended from the environment is
passed in by the caller as `envNote`). -/
def noConversationMessage : String :=
  "No development conversation exists for this project. Use the start_development tool first to initialize development with a workflow."

/-- `ConversationManager.getConversationContext`. -/
def getConversationContextOp (db : Store) (testMode : Bool)
    (projectPath gitBranch envNote : String) : Except String ConversationContext :=
  match db.lookup (generateConversationIdStr testMode projectPath gitBranch) with
  | none => .error (noConversationMessage ++ envNote)
  | some st => .ok (contextOf st)

/-- The record returned by `resetConversation`. -/
structure ResetResult where
  success : Bool
  resetItems : List String
  conversationId : String
  message : String
deriving DecidableEq

/-- The success message assembled by `resetConversation`. -/
def resetMessage (conversationId : String) (resetItems : List String)
    (reason : Option String) : String :=
  "Successfully reset conversation " ++ conversationId ++ ". Reset items: " ++
    String.intercalate ", " resetItems ++
    (match reason with
     | some r => ". Reason: " ++ r
     | none => "")

/-- The message thrown when reset is called without confirmation. -/
def confirmationMessage : String :=
  "Reset operation requires explicit confirmation. Set confirm parameter to true."

/-- `ConversationManager.resetConversation`: without confirmation it
throws before touching anything; with confirmation it resolves the
current session and cascades — soft-deletes the interaction logs,
deletes the session record, deletes the plan document. -/
def resetConversation (w : World) (testMode : Bool)
    (projectPath gitBranch envNote : String) (confirm : Bool)
    (reason : Option String) : World × Except String ResetResult :=
  if !confirm then (w, .error confirmationMessage)
  else
    match getConversationContextOp w.db testMode projectPath gitBranch envNote with
    | .error e => (w, .error e)
    | .ok context =>
      let resetItems := ["interaction_logs", "conversation_state", "plan_file"]
      ({ db := deleteConversationState w.db context.conversationId
         planFiles := deletePlanFile w.planFiles context.planFilePath
         interactionLogs := softDeleteInteractionLogs w.interactionLogs context.conversationId },
       .ok { success := true
             resetItems := resetItems
             conversationId := context.conversationId
             message := resetMessage context.conversationId resetItems reason })

/-- `ConversationManager.cleanupConversationData`: soft-deletes the
interaction logs and deletes the session record (without touching the
plan file and without any confirmation gate). -/
def cleanupConversationData (w : World) (conversationId : String) : World :=
  { db := deleteConversationState w.db conversationId
    planFiles := w.planFiles
    interactionLogs := softDeleteInteractionLogs w.interactionLogs conversationId }

/- ===================================================================
   The built-in waterfall workflow
   (resources/workflows/waterfall.yaml).  Folded block scalars are
   transcribed with single-space folding, blank lines as paragraph
   breaks, and the clipped final line break; apostrophes appear as
   \x27 escapes.
   =================================================================== -/

/-- The `idle` state of the waterfall definition: its single
transition uses the flat record shape. -/
def waterfallIdle : RawState :=
  { description := "Waiting for feature requests"
    transitions :=
      [ .flat "new_feature_request" "requirements"
          ("New feature request detected! Start requirements analysis by asking the user " ++
            "clarifying questions about WHAT they need. Focus on understanding their goals, scope, " ++
            "and constraints. Break down their needs into specific, actionable tasks and document " ++
            "them in the plan file. Mark completed requirements tasks as you progress.\n")
          "New feature request detected, starting requirements analysis" ] }

/-- The `requirements` state: nested-effects records. -/
def waterfallRequirements : RawState :=
  { description := "Gathering and analyzing requirements"
    transitions :=
      [ .nested "refine_requirements" "requirements" true
          ("Continue refining requirements. Ask more detailed questions to clarify scope, " ++
            "constraints, and user needs. Add any new requirements to the plan file and mark " ++
            "completed tasks. Ensure you have a complete understanding of WHAT needs to be built " ++
            "before moving to design.\n")
          "Requirements need further refinement and clarification"
      , .nested "requirements_complete" "design" true
          ("Requirements are complete! ✅ Now transition to design phase. Analyze the current " ++
            "software project. Particularly pay attention to interfaces, design patterns and " ++
            "architecture documentation if exists. Help the user design the technical solution by " ++
            "asking about architecture, technologies, quality goals, and implementation approach. " ++
            "Focus on HOW to build what was defined in requirements. Suggest alternative solutions " ++
            "and present tradeoffs. Document design decisions in the plan file and mark completed " ++
            "requirements tasks.\n")
          "All requirements tasks completed, moving to technical design"
      , .nested "abandon_feature" "idle" true
          ("Feature development abandoned. Clean up any temporary work and return to idle " ++
            "state. The plan file will remain for future reference if the user wants to resume this " ++
            "feature later.\n")
          "User decided to abandon this feature development" ] }

/-- The `design` state. -/
def waterfallDesign : RawState :=
  { description := "Designing technical solution"
    transitions :=
      [ .nested "refine_design" "design" true
          ("Continue refining the technical design. Ask about architecture details, " ++
            "technology choices, data models, API design, and quality considerations. Update the " ++
            "plan file with design decisions and mark completed design tasks. Ensure the design is " ++
            "solid before implementation.\n")
          "Design needs further refinement and detail"
      , .nested "requirements_unclear" "requirements" true
          ("Design phase revealed unclear requirements. Return to requirements analysis to " ++
            "clarify the WHAT before continuing with HOW. You may stash technical artifacts you " ++
            "already created. Ask specific questions about the unclear aspects and update the plan " ++
            "file with refined requirements.\n")
          "Design work revealed gaps or ambiguities in requirements"
      , .nested "design_complete" "implementation" true
          ("Design is complete! ✅ Now transition to implementation. Before we start, get a " ++
            "solid understanding of the code style and patterns used up to now. Guide the user " ++
            "through building the solution following the design. If there are special challenges, " ++
            "present them as pseudo code. When you provide real code, always use your tools to edit " ++
            "the actual files. Focus on coding best practices, proper structure, error handling, " ++
            "and basic testing. Update the plan file with implementation progress and mark " ++
            "completed design tasks.\n")
          "Technical design is complete, ready to start building"
      , .nested "abandon_feature" "idle" true
          ("Feature development abandoned during design phase. Clean up any design artifacts " ++
            "and return to idle state. The plan file will remain for future reference.\n")
          "User decided to abandon feature during design phase" ] }

/-- The `implementation` state. -/
def waterfallImplementation : RawState :=
  { description := "Building the solution"
    transitions :=
      [ .nested "refine_implementation" "implementation" true
          ("Continue implementation work. Help with coding, debugging, structure " ++
            "improvements, and adding functionality. Follow best practices and ensure code quality. " ++
            "Update the plan file with progress and mark completed implementation tasks.\n")
          "Implementation work continues, adding features or improving code"
      , .nested "design_issues" "design" true
          ("Implementation revealed issues with the design. Return to design phase to " ++
            "address architectural problems or design gaps. You may stash technical artifacts you " ++
            "already created. Analyze what\x27s not working and revise the technical approach. " ++
            "Present high-level alternative ideas to the user. Update the plan file with design " ++
            "changes.\n")
          "Implementation work revealed problems with the current design"
      , .nested "implementation_complete" "qa" true
          ("Implementation is complete! ✅ Now transition to quality assurance. Take these " ++
            "specific actions:\n1. **Syntax Check**: Run syntax checking tools or validate syntax " ++
            "manually 2. **Build Project**: Build the project to verify it compiles without errors " ++
            "3. **Run Linter**: Execute linting tools to ensure code style consistency 4. **Execute " ++
            "Tests**: Run existing tests to verify functionality\nThen conduct a multi-perspective " ++
            "code review: - **Security Perspective**: Check for vulnerabilities, input validation, " ++
            "authentication issues - **Performance Perspective**: Identify bottlenecks, inefficient " ++
            "algorithms, resource usage - **Maintainability Perspective**: Assess code readability, " ++
            "documentation, future maintenance - **Requirement Compliance**: Verify all " ++
            "requirements are properly implemented\nUpdate the plan file and mark completed " ++
            "implementation tasks.\n")
          "Core implementation is complete, ready for quality review"
      , .nested "abandon_feature" "idle" true
          ("Feature development abandoned during implementation. Clean up any incomplete " ++
            "code and return to idle state. The plan file and any completed work will remain for " ++
            "future reference.\n")
          "User decided to abandon feature during implementation" ] }

/-- The `qa` state. -/
def waterfallQa : RawState :=
  { description := "Quality assurance and review"
    transitions :=
      [ .nested "refine_qa" "qa" true
          ("Continue quality assurance work. Take these specific actions if not already " ++
            "completed:\n1. **Syntax Check**: Run syntax checking tools or validate syntax manually " ++
            "2. **Build Project**: Build the project to verify it compiles without errors 3. **Run " ++
            "Linter**: Execute linting tools to ensure code style consistency 4. **Execute Tests**: " ++
            "Run existing tests to verify functionality\nContinue multi-perspective code review: - " ++
            "**Security Perspective**: Check for vulnerabilities, input validation, authentication " ++
            "issues - **Performance Perspective**: Identify bottlenecks, inefficient algorithms, " ++
            "resource usage - **Maintainability Perspective**: Assess code readability, " ++
            "documentation, future maintenance - **Requirement Compliance**: Verify all " ++
            "requirements are properly implemented\nUpdate the plan file with QA progress and mark " ++
            "completed tasks.\n")
          "Quality assurance work continues, improving code quality"
      , .nested "implementation_issues" "implementation" true
          ("Quality assurance revealed implementation issues. Return to implementation phase " ++
            "to fix bugs, improve code quality, or add missing functionality. Focus on addressing " ++
            "the specific issues identified during QA review.\n")
          "QA review found issues that require implementation changes"
      , .nested "qa_complete" "testing" true
          ("Quality assurance is complete! ✅ Now transition to testing phase. Ask the user " ++
            "about edge cases you identified, propose new test scenarios. Implement those new tests " ++
            "and make sure they succeed. At this phase, do not change the actual source code " ++
            "anymore, but adapt the tests. Once they succeed, review the tests to make sure they " ++
            "actually test the artifacts implemented. Update the plan file and mark completed QA " ++
            "tasks.\n")
          "Quality assurance is complete, ready for comprehensive testing"
      , .nested "abandon_feature" "idle" true
          ("Feature development abandoned during QA phase. Clean up any QA artifacts and " ++
            "return to idle state. You may stash technical artifacts you already created. The plan " ++
            "file and completed work will remain for future reference.\n")
          "User decided to abandon feature during quality assurance" ] }

/-- The `testing` state. -/
def waterfallTesting : RawState :=
  { description := "Testing and validation"
    transitions :=
      [ .nested "refine_testing" "testing" true
          ("Continue testing work. Create more test cases, improve test coverage, run " ++
            "integration tests, and validate edge cases. Update the plan file with testing progress " ++
            "and mark completed testing tasks.\n")
          "Testing work continues, improving coverage and validation"
      , .nested "qa_issues" "qa" true
          ("Testing revealed quality issues. Return to QA phase to address code quality " ++
            "problems, documentation gaps, or requirement compliance issues identified during " ++
            "testing. Focus on the specific QA issues found.\n")
          "Testing found issues that require quality assurance attention"
      , .nested "testing_complete" "complete" true
          ("Testing is complete! ✅ The feature is fully implemented, tested, and ready for " ++
            "delivery. Transition to complete state. Summarize what was accomplished and prepare " ++
            "final documentation. Mark all testing tasks as complete.\n")
          "All testing is complete, feature is ready for delivery"
      , .nested "abandon_feature" "idle" true
          ("Feature development abandoned during testing phase. Clean up any testing " ++
            "artifacts and return to idle state. The plan file and completed work will remain for " ++
            "future reference.\n")
          "User decided to abandon feature during testing phase" ] }

/-- The `complete` state. -/
def waterfallComplete : RawState :=
  { description := "Feature complete and ready for delivery"
    transitions :=
      [ .nested "feature_delivered" "idle" true
          ("Feature has been delivered successfully! Return to idle state, ready for the " ++
            "next development task. The completed plan file serves as documentation of what was " ++
            "accomplished.\n")
          "Feature delivery complete, returning to idle state"
      , .nested "new_feature_request" "requirements" true
          ("New feature request while previous feature is complete. Start fresh requirements " ++
            "analysis for the new feature. Ask clarifying questions about what they need and create " ++
            "a new development plan.\n")
          "New feature request received, starting new development cycle" ] }

/-- The `direct_transitions` list of the waterfall definition. -/
def waterfallDirectTransitions : List DirectTransitionRule :=
  [ ⟨"idle",
      "Returned to idle state. Ask the user why he did this.",
      "Direct transition to idle state"⟩
  , ⟨"requirements",
      ("Starting requirements analysis. Ask the user clarifying questions about WHAT they " ++
        "need. Focus on understanding their goals, scope, constraints, and success criteria. " ++
        "Break down their needs into specific, actionable tasks and document them in the plan " ++
        "file. Mark completed requirements tasks as you progress."),
      "Direct transition to requirements phase"⟩
  , ⟨"design",
      ("Starting design phase. Help the user design the technical solution by asking about " ++
        "architecture, technologies, data models, API design, and quality goals. Focus on HOW " ++
        "to implement what\x27s needed. Document design decisions in the plan file and ensure " ++
        "the approach is solid before implementation."),
      "Direct transition to design phase"⟩
  , ⟨"implementation",
      ("Starting implementation phase. Guide the user through building the solution " ++
        "following best practices. Focus on code structure, error handling, security, and " ++
        "maintainability. Write clean, well-documented code and include basic testing. Update " ++
        "the plan file with implementation progress."),
      "Direct transition to implementation phase"⟩
  , ⟨"qa",
      ("Starting quality assurance phase. Take the following specific actions: 1) Syntax " ++
        "Check: Run syntax checking tools or validate syntax manually, 2) Build Project: Build " ++
        "the project to verify it compiles without errors, 3) Run Linter: Execute linting tools " ++
        "to ensure code style consistency, 4) Execute Tests: Run existing tests to verify " ++
        "functionality. Then conduct a multi-perspective code review from security, " ++
        "performance, UX, maintainability, and requirement compliance perspectives. Update the " ++
        "plan file with QA progress and mark completed tasks."),
      "Direct transition to quality assurance phase"⟩
  , ⟨"testing",
      ("Starting testing phase. Create comprehensive test plans, write and execute tests, " ++
        "validate feature completeness, and ensure everything works as expected. Focus on test " ++
        "coverage, edge cases, integration testing, and user acceptance validation."),
      "Direct transition to testing phase"⟩
  , ⟨"complete",
      ("Feature development is complete! All phases have been finished successfully. The " ++
        "feature is implemented, tested, and ready for delivery. Summarize what was " ++
        "accomplished and ensure all documentation is finalized."),
      "Direct transition to complete phase"⟩ ]

/-- The raw waterfall definition, mixing the flat edge shape (in
`idle`) with the nested-effects shape (everywhere else), exactly as
`resources/workflows/waterfall.yaml` does. -/
def waterfallRaw : RawStateMachine :=
  { name := "Classical waterfall"
    description := "From Specification down to test – the historical way"
    initial_state := "idle"
    states :=
      [ ("idle", waterfallIdle)
      , ("requirements", waterfallRequirements)
      , ("design", waterfallDesign)
      , ("implementation", waterfallImplementation)
      , ("qa", waterfallQa)
      , ("testing", waterfallTesting)
      , ("complete", waterfallComplete) ]
    direct_transitions := waterfallDirectTransitions }

/-- The normalized waterfall graph. -/
def waterfallMachine : YamlStateMachine :=
  normalizeStateMachine waterfallRaw

/- ===================================================================
   Concrete fixtures used by witnesses
   =================================================================== -/

/-- A file system with no files at all. -/
def emptyFs : FileSystem :=
  { pathExists := fun _ => false, parseFile := fun _ => none }

/-- A workflow manager that found no workflow definitions. -/
def wmEmpty : WorkflowManager :=
  { fs := emptyFs, predefinedWorkflows := [] }

/-- A minimal predefined workflow used by store fixtures. -/
def tinyMachine : YamlStateMachine :=
  { name := "Tiny"
    description := "single idle phase"
    initial_state := "idle"
    states := [("idle", ⟨"Waiting", []⟩)]
    direct_transitions := [] }

/-- A workflow manager whose only predefined workflow is `waterfall`
(bound to the tiny graph). -/
def wmTiny : WorkflowManager :=
  { fs := emptyFs, predefinedWorkflows := [("waterfall", tinyMachine)] }

/-- The session record created by the C3 witness run. -/
def fixtureState : ConversationState :=
  { conversationId := "proj-main-p423k1"
    projectPath := "/tmp/proj"
    gitBranch := "main"
    currentPhase := "idle"
    planFilePath := "/tmp/proj/.vibe/development-plan.md"
    workflowName := "waterfall"
    createdAt := "t1"
    updatedAt := "t1" }

/-- The store holding exactly the fixture record. -/
def fixtureDb : Store := [("proj-main-p423k1", fixtureState)]

/-- The world holding the fixture session, its plan file, and one
live interaction-log row. -/
def fixtureWorld : World :=
  { db := fixtureDb
    planFiles := ["/tmp/proj/.vibe/development-plan.md"]
    interactionLogs := [("proj-main-p423k1", false)] }

/-- The session record created by the C10 witness run (branch `dev`). -/
def fixtureDevState : ConversationState :=
  { conversationId := "id1"
    projectPath := "/tmp/proj"
    gitBranch := "dev"
    currentPhase := "idle"
    planFilePath := "/tmp/proj/.vibe/development-plan-dev.md"
    workflowName := "waterfall"
    createdAt := "t0"
    updatedAt := "t0" }


/- ===================================================================
   Helper lemmas
   =================================================================== -/

theorem takeWhile_append_break {α : Type} (p : α → Bool) :
    ∀ (l1 : List α) (x : α) (l2 : List α),
      (∀ c ∈ l1, p c = true) → p x = false →
      (l1 ++ x :: l2).takeWhile p = l1 := by
  intro l1 x l2 h hx
  induction l1 with
  | nil => simp [List.takeWhile_cons, hx]
  | cons c cs ih =>
    have hc : p c = true := h c (by simp)
    simp only [List.cons_append, List.takeWhile_cons, hc, if_true]
    rw [ih (fun d hd => h d (by simp [hd]))]

theorem lastDashSeg_append (a h : List Char)
    (hh : ∀ c ∈ h, (c != '-') = true) :
    lastDashSeg (a ++ '-' :: h) = h := by
  unfold lastDashSeg
  have hrev : (a ++ '-' :: h).reverse = h.reverse ++ '-' :: a.reverse := by
    simp [List.reverse_append]
  rw [hrev, takeWhile_append_break _ h.reverse '-' a.reverse
    (fun c hc => hh c (List.mem_reverse.1 hc)) (by decide)]
  exact List.reverse_reverse h

theorem digit36_no_dash (d : Nat) (hd : d < 36) : (digit36 d != '-') = true := by
  interval_cases d <;> decide

theorem toBase36Aux_no_dash (fuel : Nat) :
    ∀ (n : Nat), ∀ c ∈ toBase36Aux fuel n, (c != '-') = true := by
  induction fuel with
  | zero =>
    intro n c hc
    rw [List.mem_singleton.1 hc]
    exact digit36_no_dash (n % 36) (Nat.mod_lt _ (by omega))
  | succ fuel ih =>
    intro n c hc
    rw [toBase36Aux] at hc
    split at hc
    · rw [List.mem_singleton.1 hc]
      exact digit36_no_dash n (by omega)
    · rcases List.mem_append.1 hc with h1 | h2
      · exact ih (n / 36) c h1
      · rw [List.mem_singleton.1 h2]
        exact digit36_no_dash (n % 36) (Nat.mod_lt _ (by omega))

theorem toBase36_no_dash (n : Nat) : ∀ c ∈ toBase36 n, (c != '-') = true :=
  toBase36Aux_no_dash n n

theorem hashStr6_no_dash (p b : List Char) :
    ∀ c ∈ hashStr6 p b, (c != '-') = true := by
  intro c hc
  exact toBase36_no_dash _ c (List.take_subset _ _ hc)

theorem lastDashSeg_generateConversationId (p b : List Char) :
    lastDashSeg (generateConversationId false p b) = hashStr6 p b := by
  have hform : generateConversationId false p b =
      (projectName p ++ '-' :: cleanBranch b) ++ '-' :: hashStr6 p b := by
    simp [generateConversationId, List.append_assoc]
  rw [hform]
  exact lastDashSeg_append _ _ (hashStr6_no_dash p b)

theorem lookup_save_isSome (db : Store) (st : ConversationState) (k : String)
    (h : (db.lookup k).isSome = true) :
    ((saveConversationState db st).lookup k).isSome = true := by
  unfold saveConversationState
  simp only [List.lookup]
  cases hc : k == st.conversationId with
  | true => rfl
  | false => exact h

theorem lookup_delete_self (db : Store) (conversationId : String) :
    (deleteConversationState db conversationId).lookup conversationId = none := by
  unfold deleteConversationState
  induction db with
  | nil => rfl
  | cons kv rest ih =>
    obtain ⟨k1, v1⟩ := kv
    simp only [List.filter_cons]
    cases hne : (k1 != conversationId) with
    | false => simpa using ih
    | true =>
      have hne2 : conversationId ≠ k1 := by
        have : ¬ k1 = conversationId := by simpa [bne] using hne
        exact fun hEq => this hEq.symm
      have hbeq : (conversationId == k1) = false := beq_eq_false_iff_ne.2 hne2
      simp only [List.lookup, hbeq]
      exact ih

/- ===================================================================
   C2
   =================================================================== -/

/-- C2: the session-key derivation is deterministic — with a fixed
test-mode flag, identical `(projectPath, branch)` inputs always
produce the identical key — and, outside test mode, two distinct
pairs can share a key only when the truncated stable rolling hash of
`projectPath + ":" + branch` collides for them. -/
theorem generateConversationId_deterministic_and_collision_bound :
    (∀ (testMode : Bool) (p b : List Char),
      generateConversationId testMode p b = generateConversationId testMode p b) ∧
    (∀ (p1 b1 p2 b2 : List Char),
      generateConversationId false p1 b1 = generateConversationId false p2 b2 →
      (p1, b1) ≠ (p2, b2) →
      hashStr6 p1 b1 = hashStr6 p2 b2) := by
  refine ⟨fun _ _ _ => rfl, fun p1 b1 p2 b2 hkey _ => ?_⟩
  have h1 := lastDashSeg_generateConversationId p1 b1
  have h2 := lastDashSeg_generateConversationId p2 b2
  rw [← h1, ← h2, hkey]

/-- C2 witness: the prefixes `Aa` and `BB` collide under the rolling
hash, so the distinct projects `/repos/Aa/x` and `/repos/BB/x` on
branch `main` receive the same session key — exactly the hash
collision the claim reserves. -/
theorem generateConversationId_collision_witness :
    generateConversationId false ("/repos/Aa/x".toList) ("main".toList) =
      generateConversationId false ("/repos/BB/x".toList) ("main".toList) ∧
    hashStr6 ("/repos/Aa/x".toList) ("main".toList) =
      hashStr6 ("/repos/BB/x".toList) ("main".toList) :=
  ⟨by decide,
    generateConversationId_deterministic_and_collision_bound.2
      ("/repos/Aa/x".toList) ("main".toList) ("/repos/BB/x".toList) ("main".toList)
      (by decide) (by decide)⟩

/- ===================================================================
   C7
   =================================================================== -/

/-- C7: branch detection is total — for every environment and project
path, a missing `.git` directory or a failing git invocation resolves
to the sentinel `"default"` with no error, and the only other outcome
is the trimmed output of the successful git command. -/
theorem getGitBranch_total_default_fallback (env : GitEnv) (projectPath : String) :
    (env.hasGitDir projectPath = false → getGitBranch env projectPath = "default") ∧
    (env.branchCmd projectPath = none → getGitBranch env projectPath = "default") ∧
    (getGitBranch env projectPath = "default" ∨
      ∃ out, env.branchCmd projectPath = some out ∧
        getGitBranch env projectPath = out.trim) := by
  refine ⟨fun hno => by simp [getGitBranch, hno], fun hfail => ?_, ?_⟩
  · by_cases hg : env.hasGitDir projectPath <;>
      simp [getGitBranch, hg, hfail]
  · by_cases hg : env.hasGitDir projectPath
    · cases hcmd : env.branchCmd projectPath with
      | none => left; simp [getGitBranch, hg, hcmd]
      | some out => right; exact ⟨out, rfl, by simp [getGitBranch, hg, hcmd]⟩
    · left; simp [getGitBranch, hg]

/-- C7 witness: on a directory that is not version-controlled, branch
detection returns `"default"`. -/
theorem getGitBranch_default_witness :
    getGitBranch bareGitEnv "/tmp/plain-dir" = "default" :=
  (getGitBranch_total_default_fallback bareGitEnv "/tmp/plain-dir").1 rfl

/- ===================================================================
   C1
   =================================================================== -/

/-- C1: an explicit phase jump to any phase declared in the graph
succeeds from any current phase: the result carries the edge's
guidance when a modeled edge from the current phase targets it, else
the target's `DirectTransitionRule` guidance, else the generic
direct-transition message — never a failure for lack of a modeled
edge. -/
theorem explicitJump_total_for_declared_phases
    (sm : YamlStateMachine) (p t : String)
    (ht : (sm.states.lookup t).isSome = true) :
    ∃ r : TransitionResult,
      handleExplicitTransition sm p t = .ok r ∧ r.newPhase = t ∧
      ((∃ e, findEdgeTo sm p t = some e ∧
          r.instructions = e.instructions ∧
          r.transition_reason = e.transition_reason) ∨
       (findEdgeTo sm p t = none ∧
        ∃ rule, findDirectRule sm t = some rule ∧
          r.instructions = rule.instructions ∧
          r.transition_reason = rule.transition_reason) ∨
       (findEdgeTo sm p t = none ∧ findDirectRule sm t = none ∧
        r.instructions = genericDirectInstructions t)) := by
  unfold handleExplicitTransition
  rw [ht, if_pos rfl]
  cases he : findEdgeTo sm p t with
  | some e => exact ⟨_, rfl, rfl, .inl ⟨e, rfl, rfl, rfl⟩⟩
  | none =>
    cases hr : findDirectRule sm t with
    | some rule => exact ⟨_, rfl, rfl, .inr (.inl ⟨rfl, rule, rfl, rfl, rfl⟩)⟩
    | none => exact ⟨_, rfl, rfl, .inr (.inr ⟨rfl, rfl, rfl⟩)⟩

/-- C1 witness: in the waterfall graph, jumping from `requirements`
to `testing` — a phase with no modeled edge from `requirements` —
still succeeds (via the `testing` direct-transition rule). -/
theorem explicitJump_waterfall_witness :
    ∃ r : TransitionResult,
      handleExplicitTransition waterfallMachine "requirements" "testing" = .ok r ∧
      r.newPhase = "testing" ∧
      ((∃ e, findEdgeTo waterfallMachine "requirements" "testing" = some e ∧
          r.instructions = e.instructions ∧
          r.transition_reason = e.transition_reason) ∨
       (findEdgeTo waterfallMachine "requirements" "testing" = none ∧
        ∃ rule, findDirectRule waterfallMachine "testing" = some rule ∧
          r.instructions = rule.instructions ∧
          r.transition_reason = rule.transition_reason) ∨
       (findEdgeTo waterfallMachine "requirements" "testing" = none ∧
        findDirectRule waterfallMachine "testing" = none ∧
        r.instructions = genericDirectInstructions "testing")) :=
  explicitJump_total_for_declared_phases waterfallMachine "requirements" "testing" (by rfl)

/- ===================================================================
   C5
   =================================================================== -/

/-- C5: resolving the `custom` workflow searches the fixed ordered
candidate list, loads the first existing file (returning its parsed
graph), and when no candidate exists fails carrying the full list of
searched candidate paths. -/
theorem loadWorkflowForProject_custom_resolution
    (wm : WorkflowManager) (projectPath : String) :
    customWorkflowPaths projectPath =
      [projectPath ++ "/" ++ ".vibe/state-machine.yaml",
       projectPath ++ "/" ++ ".vibe/state-machine.yml",
       projectPath ++ "/" ++ ".vibe/workflow.yaml",
       projectPath ++ "/" ++ ".vibe/workflow.yml"] ∧
    (∀ filePath g,
      (customWorkflowPaths projectPath).find? wm.fs.pathExists = some filePath →
      wm.fs.parseFile filePath = some g →
      loadWorkflowForProject wm projectPath (some "custom") = .ok g) ∧
    ((∀ c ∈ customWorkflowPaths projectPath, wm.fs.pathExists c = false) →
      loadWorkflowForProject wm projectPath (some "custom") =
        .error (.customWorkflowMissing projectPath customWorkflowRelPaths)) := by
  refine ⟨rfl, ?_, ?_⟩
  · intro filePath g hfind hparse
    simp [loadWorkflowForProject, hfind, loadFromFile, hparse]
  · intro hnone
    have hfind : (customWorkflowPaths projectPath).find? wm.fs.pathExists = none :=
      List.find?_eq_none.2 (fun x hx => by simp [hnone x hx])
    simp [loadWorkflowForProject, hfind]

/-- C5 witness: with no candidate file on disk, resolving `custom`
fails with the error carrying all four searched candidate paths. -/
theorem customWorkflowMissing_witness :
    loadWorkflowForProject wmEmpty "/tmp/proj" (some "custom") =
      .error (.customWorkflowMissing "/tmp/proj" customWorkflowRelPaths) :=
  (loadWorkflowForProject_custom_resolution wmEmpty "/tmp/proj").2.2 (fun _ _ => rfl)

/- ===================================================================
   C6
   =================================================================== -/

/-- C6: a requested workflow name that is neither predefined nor the
`custom` sentinel fails with the unknown-workflow error listing the
valid names (the predefined names plus `custom`). -/
theorem loadWorkflowForProject_unknown_name (wm : WorkflowManager)
    (projectPath workflowName : String)
    (hc : workflowName ≠ "custom")
    (hp : wm.predefinedWorkflows.lookup workflowName = none) :
    loadWorkflowForProject wm projectPath (some workflowName) =
      .error (.unknownWorkflow workflowName (getWorkflowNames wm ++ ["custom"])) := by
  simp [loadWorkflowForProject, hc, hp]

/-- C6 witness: the name `yolo` is unknown to a manager with no
predefined workflows. -/
theorem unknownWorkflow_witness :
    loadWorkflowForProject wmEmpty "/tmp/proj" (some "yolo") =
      .error (.unknownWorkflow "yolo" (getWorkflowNames wmEmpty ++ ["custom"])) :=
  loadWorkflowForProject_unknown_name wmEmpty "/tmp/proj" "yolo" (by decide) rfl

/- ===================================================================
   C3
   =================================================================== -/

/-- C3: session creation is idempotent — a second create call for the
same derived key returns the very same context, leaves the store
exactly as it was, and performs no write (flag `false`). -/
theorem createConversationContext_idempotent
    (wm : WorkflowManager) (db : Store) (testMode : Bool)
    (projectPath gitBranch workflowName t1 t2 : String)
    (c1 : ConversationContext) (db1 : Store) (w1 : Bool)
    (h : createConversationContext wm db testMode projectPath gitBranch workflowName t1 =
      .ok (c1, db1, w1)) :
    createConversationContext wm db1 testMode projectPath gitBranch workflowName t2 =
      .ok (c1, db1, false) := by
  unfold createConversationContext at h ⊢
  cases hlook : db.lookup (generateConversationIdStr testMode projectPath gitBranch) with
  | some ex =>
    rw [hlook] at h
    simp only [Except.ok.injEq, Prod.mk.injEq] at h
    obtain ⟨hc, hdb, _⟩ := h
    subst hc
    subst hdb
    rw [hlook]
  | none =>
    rw [hlook] at h
    unfold createNewConversationState at h
    cases hload : loadWorkflowForProject wm projectPath (some workflowName) with
    | error e => rw [hload] at h; simp at h
    | ok sm =>
      rw [hload] at h
      simp only [Except.ok.injEq, Prod.mk.injEq] at h
      obtain ⟨hc, hdb, _⟩ := h
      subst hc
      subst hdb
      simp [saveConversationState, List.lookup]

/-- C3 witness: re-creating the fixture session returns the stored
record's context, the unchanged store, and the no-write flag. -/
theorem createConversationContext_idempotent_witness :
    createConversationContext wmTiny fixtureDb true "/tmp/proj" "main" "waterfall" "t2" =
      .ok (contextOf fixtureState, fixtureDb, false) :=
  createConversationContext_idempotent wmTiny [] true "/tmp/proj" "main" "waterfall"
    "t1" "t2" (contextOf fixtureState) fixtureDb true (by rfl)

/- ===================================================================
   C4
   =================================================================== -/

/-- C4: updating a session key absent from the store fails with the
not-found message and returns the store untouched (so no session is
created), and conversely any run of update that changes the store
started from a store that already held the key. -/
theorem updateConversationState_missing_session :
    (∀ (db : Store) (conversationId : String) (u : StateUpdates) (now : String),
      db.lookup conversationId = none →
      updateConversationState db conversationId u now =
        (db, some ("Conversation state not found for ID: " ++ conversationId))) ∧
    (∀ (db : Store) (conversationId : String) (u : StateUpdates) (now : String),
      (updateConversationState db conversationId u now).1 ≠ db →
      (db.lookup conversationId).isSome = true) := by
  constructor
  · intro db conversationId u now h
    simp [updateConversationState, h]
  · intro db conversationId u now hne
    cases h : db.lookup conversationId with
    | none =>
      exfalso
      apply hne
      simp [updateConversationState, h]
    | some cur => rfl

/-- C4 witness: updating the key `missing` on the empty store fails
with the not-found message and the store stays empty. -/
theorem updateConversationState_missing_witness :
    updateConversationState [] "missing" ⟨none, none, none⟩ "now" =
      ([], some ("Conversation state not found for ID: " ++ "missing")) :=
  updateConversationState_missing_session.1 [] "missing" ⟨none, none, none⟩ "now" rfl

/- ===================================================================
   C8
   =================================================================== -/

/-- C8 counterexample: `cleanupConversationData` — an operation other
than the confirmed reset — also deletes a session record, so reset is
not the only session destructor in the code. -/
theorem cleanupConversationData_deletes_session :
    (cleanupConversationData fixtureWorld "proj-main-p423k1").db.lookup
      "proj-main-p423k1" = none ∧
    fixtureWorld.db.lookup "proj-main-p423k1" = some fixtureState :=
  ⟨rfl, rfl⟩

/-- C8 (amended): reset without confirmation fails and changes
nothing; confirmed reset on an existing session cascades — deletes
the session record, its plan document, and soft-deletes its
interaction logs; and among the session-store operations only reset
and the cleanup helper remove a session: update and create always
preserve every stored session. -/
theorem resetConversation_confirmation_and_cascade :
    (∀ (w : World) (testMode : Bool) (projectPath gitBranch envNote : String)
        (reason : Option String),
      resetConversation w testMode projectPath gitBranch envNote false reason =
        (w, .error confirmationMessage)) ∧
    (∀ (w : World) (testMode : Bool) (projectPath gitBranch envNote : String)
        (reason : Option String) (context : ConversationContext),
      getConversationContextOp w.db testMode projectPath gitBranch envNote = .ok context →
      ∃ res,
        resetConversation w testMode projectPath gitBranch envNote true reason =
          ({ db := deleteConversationState w.db context.conversationId
             planFiles := deletePlanFile w.planFiles context.planFilePath
             interactionLogs :=
               softDeleteInteractionLogs w.interactionLogs context.conversationId },
           .ok res) ∧
        res.resetItems = ["interaction_logs", "conversation_state", "plan_file"] ∧
        (deleteConversationState w.db context.conversationId).lookup
          context.conversationId = none) ∧
    (∀ (db : Store) (conversationId k : String) (u : StateUpdates) (now : String),
      (db.lookup k).isSome = true →
      ((updateConversationState db conversationId u now).1.lookup k).isSome = true) ∧
    (∀ (wm : WorkflowManager) (db : Store) (testMode : Bool)
        (projectPath gitBranch workflowName timestamp : String)
        (c : ConversationContext) (db' : Store) (wrote : Bool) (k : String),
      createConversationContext wm db testMode projectPath gitBranch workflowName
        timestamp = .ok (c, db', wrote) →
      (db.lookup k).isSome = true →
      (db'.lookup k).isSome = true) := by
  refine ⟨fun _ _ _ _ _ _ => rfl, ?_, ?_, ?_⟩
  · intro w testMode projectPath gitBranch envNote reason context h
    refine ⟨⟨true, ["interaction_logs", "conversation_state", "plan_file"],
      context.conversationId,
      resetMessage context.conversationId
        ["interaction_logs", "conversation_state", "plan_file"] reason⟩,
      ?_, rfl, lookup_delete_self w.db context.conversationId⟩
    simp [resetConversation, h]
  · intro db conversationId k u now h
    unfold updateConversationState
    cases hl : db.lookup conversationId with
    | none => exact h
    | some cur => exact lookup_save_isSome db _ k h
  · intro wm db testMode projectPath gitBranch workflowName timestamp c db' wrote k h hk
    unfold createConversationContext at h
    cases hlook : db.lookup (generateConversationIdStr testMode projectPath gitBranch) with
    | some ex =>
      rw [hlook] at h
      simp only [Except.ok.injEq, Prod.mk.injEq] at h
      obtain ⟨_, hdb, _⟩ := h
      subst hdb
      exact hk
    | none =>
      rw [hlook] at h
      unfold createNewConversationState at h
      cases hload : loadWorkflowForProject wm projectPath (some workflowName) with
      | error e => rw [hload] at h; simp at h
      | ok sm =>
        rw [hload] at h
        simp only [Except.ok.injEq, Prod.mk.injEq] at h
        obtain ⟨_, hdb, _⟩ := h
        subst hdb
        exact lookup_save_isSome db _ k hk

/-- C8 witness: confirmed reset of the fixture session deletes its
record, its plan document, and flags its interaction logs. -/
theorem resetConversation_cascade_witness :
    ∃ res,
      resetConversation fixtureWorld true "/tmp/proj" "main" "" true none =
        ({ db := deleteConversationState fixtureWorld.db
              (contextOf fixtureState).conversationId
           planFiles := deletePlanFile fixtureWorld.planFiles
              (contextOf fixtureState).planFilePath
           interactionLogs := softDeleteInteractionLogs fixtureWorld.interactionLogs
              (contextOf fixtureState).conversationId },
         .ok res) ∧
      res.resetItems = ["interaction_logs", "conversation_state", "plan_file"] ∧
      (deleteConversationState fixtureWorld.db
          (contextOf fixtureState).conversationId).lookup
        (contextOf fixtureState).conversationId = none :=
  resetConversation_confirmation_and_cascade.2.1 fixtureWorld true "/tmp/proj" "main" ""
    none (contextOf fixtureState) (by rfl)

/- ===================================================================
   C9
   =================================================================== -/

/-- C9: the waterfall definition mixes the flat edge shape (in `idle`)
with the nested-effects shape (elsewhere); the loader normalizes both
shapes into the single internal `Edge` record, and the mixed
definition loads (normalizes and validates) successfully. -/
theorem waterfall_mixed_shapes_load :
    waterfallRaw.states.any (fun s => s.2.transitions.any isFlatShape) = true ∧
    waterfallRaw.states.any (fun s => s.2.transitions.any isNestedShape) = true ∧
    loadStateMachine waterfallRaw = .ok waterfallMachine ∧
    (∀ trigger target instructions reason,
      normalizeTransition (.flat trigger target instructions reason) =
        ⟨trigger, target, instructions, reason, true⟩) ∧
    (∀ trigger target modeled instructions reason,
      normalizeTransition (.nested trigger target modeled instructions reason) =
        ⟨trigger, target, instructions, reason, modeled⟩) :=
  ⟨rfl, rfl, rfl, fun _ _ _ _ => rfl, fun _ _ _ _ _ => rfl⟩

/- ===================================================================
   C10
   =================================================================== -/

/-- C10: the plan-document path of a newly created session is a
function of the branch: `main` and `master` map to
`<projectPath>/.vibe/development-plan.md`, every other branch `b` to
`<projectPath>/.vibe/development-plan-<b>.md`. -/
theorem createdSession_planFilePath
    (wm : WorkflowManager) (db : Store)
    (conversationId projectPath gitBranch workflowName timestamp : String)
    (st : ConversationState) (db' : Store)
    (h : createNewConversationState wm db conversationId projectPath gitBranch
      workflowName timestamp = .ok (st, db')) :
    st.planFilePath =
      (if gitBranch = "main" ∨ gitBranch = "master"
       then projectPath ++ "/.vibe/" ++ "development-plan.md"
       else projectPath ++ "/.vibe/" ++ ("development-plan-" ++ gitBranch ++ ".md")) := by
  unfold createNewConversationState at h
  cases hload : loadWorkflowForProject wm projectPath (some workflowName) with
  | error e => rw [hload] at h; simp at h
  | ok sm =>
    rw [hload] at h
    simp only [Except.ok.injEq, Prod.mk.injEq] at h
    obtain ⟨hst, _⟩ := h
    subst hst
    unfold planFilePathOf planFileNameOf
    by_cases hb : gitBranch = "main" ∨ gitBranch = "master" <;> simp [hb]

/-- C10 witness: a session created on branch `dev` gets the plan path
`/tmp/proj/.vibe/development-plan-dev.md`. -/
theorem createdSession_planFilePath_witness :
    fixtureDevState.planFilePath =
      (if "dev" = "main" ∨ "dev" = "master"
       then "/tmp/proj" ++ "/.vibe/" ++ "development-plan.md"
       else "/tmp/proj" ++ "/.vibe/" ++ ("development-plan-" ++ "dev" ++ ".md")) :=
  createdSession_planFilePath wmTiny [] "id1" "/tmp/proj" "dev" "waterfall" "t0"
    fixtureDevState (saveConversationState [] fixtureDevState) (by rfl)

end VibeFeature
